import Mathlib

/-!
Verification of the client-lifecycle middleware in
`src/core/server/src/http/client_management.rs` (`manage_clients`), over a
shallow embedding. The registry operations `add_client` / `delete_client` are
declared on the shard and are not under `src/`; they are modelled from the
spec where marked. The wrapper itself is translated statement by statement
from the source.
-/

namespace Iggy

/-- Transport protocols of the broker (`iggy_common::TransportProtocol`); the
wrapper only ever uses `Http`. -/
inductive TransportProtocol
  | Http
  | Tcp
  | Quic
deriving DecidableEq, Repr

/-- The resolved peer address (`CompioSocketAddr`), host and port. -/
structure CompioSocketAddr where
  host : String
  port : Nat
deriving DecidableEq, Repr

/-- One registered connection (spec §3 `ClientSession`). -/
structure ClientSession where
  client_id : Nat
  remote_address : CompioSocketAddr
  protocol : TransportProtocol
deriving DecidableEq, Repr

/-- The per-shard session registry: a fresh-identifier counter and the list of
live sessions. -/
structure Registry where
  next_id : Nat
  sessions : List ClientSession
deriving DecidableEq, Repr

/-- An inbound request; opaque to the wrapper beyond being forwarded. -/
structure Request where
  payload : Nat
deriving DecidableEq, Repr

/-- The handler chain's response; a handler failure is itself a response
carrying the handler's own error status. -/
structure Response where
  status : Nat
  payload : Nat
deriving DecidableEq, Repr

/-- `axum::http::StatusCode`, the declared error type of the wrapper. -/
abbrev StatusCode := Nat

/-- Modelled from the spec: `Shard::add_client` is not under `src/`. Per §4.1
it always succeeds, assigns a fresh registry-unique identifier, inserts the
session and returns it; freshness is realised by a monotone counter. -/
def add_client (r : Registry) (addr : CompioSocketAddr) (p : TransportProtocol) :
    ClientSession × Registry :=
  let s : ClientSession := ⟨r.next_id, addr, p⟩
  (s, ⟨r.next_id + 1, s :: r.sessions⟩)

/-- Modelled from the spec: `Shard::delete_client` is not under `src/`. Per
§4.1 and §7 it deletes the entry with the given identifier if present, and an
absent identifier is a non-fatal, logged no-op. -/
def delete_client (r : Registry) (id : Nat) : Registry :=
  ⟨r.next_id, r.sessions.filter (fun s => s.client_id != id)⟩

/-- `compio::runtime::spawn(task).await`: the spawned task runs on the same
single-threaded shard scheduler and its completion is awaited before the
caller resumes, so its state effect is applied in full before the caller
continues; the join result is what the wrapper discards with `let _ =`. -/
def spawn_then_await {α : Type} (task : Registry → α × Registry) (st : Registry) :
    α × Registry :=
  task st

/-- The wrapper `manage_clients`, translated statement by statement from the
source: register the peer over HTTP, run the handler chain, spawn and await
the deregistration, and return `Ok(response)`. -/
def manage_clients (state : Registry) (addr : CompioSocketAddr) (request : Request)
    (next : Request → Response) : Except StatusCode Response × Registry :=
  let p := add_client state addr TransportProtocol.Http
  let client_id := p.1.client_id
  let response := next request
  let q := spawn_then_await (fun st => ((), delete_client st client_id)) p.2
  (Except.ok response, q.2)

/-- Observable events of one wrapper execution, in the order they occur. -/
inductive Event
  | registered (s : ClientSession)
  | handlerRun
  | deregistered (id : Nat)
  | returned
deriving DecidableEq, Repr

/-- `manage_clients` again, instrumented: each operation appends its event to
the trace as it completes, and `returned` marks the wrapper's return to its
caller. -/
def manage_clients_trace (state : Registry) (addr : CompioSocketAddr) (request : Request)
    (next : Request → Response) :
    Except StatusCode Response × Registry × List Event :=
  let p := add_client state addr TransportProtocol.Http
  let client_id := p.1.client_id
  let response := next request
  let q := spawn_then_await (fun st => ((), delete_client st client_id)) p.2
  (Except.ok response, q.2,
    [Event.registered p.1, Event.handlerRun, Event.deregistered client_id, Event.returned])

/-- The registry state when the wrapper's future is dropped (the request is
cancelled) while suspended at the `next.run(request).await` point: every
statement up to that await has run, so `add_client` has completed, and —
because `manage_clients` installs no drop guard or scoped cleanup — no further
statement of the wrapper executes. -/
def manage_clients_cancelled_at_handler (state : Registry) (addr : CompioSocketAddr) :
    Registry :=
  (add_client state addr TransportProtocol.Http).2

/-- The spec's comparison point (§9): the same wrapper with `delete_client`
called directly and synchronously in place of the spawn-then-await. -/
def manage_clients_direct (state : Registry) (addr : CompioSocketAddr) (request : Request)
    (next : Request → Response) : Except StatusCode Response × Registry :=
  let p := add_client state addr TransportProtocol.Http
  let response := next request
  (Except.ok response, delete_client p.2 p.1.client_id)

/-- N registrations against one shard. Within a shard the scheduler is
single-threaded and cooperative and `add_client` contains no suspension
point, so N concurrent registrations execute as some sequence of atomic
`add_client` calls; this folds that sequence. -/
def register_all (r : Registry) (addrs : List CompioSocketAddr) :
    List Nat × Registry :=
  match addrs with
  | [] => ([], r)
  | a :: rest =>
    let p := add_client r a TransportProtocol.Http
    let q := register_all p.2 rest
    (p.1.client_id :: q.1, q.2)

/-- Registry well-formedness: every live session's identifier is below the
fresh-identifier counter. `add_client` preserves it and every registry
reachable from the empty one satisfies it. -/
def Registry.wf (r : Registry) : Prop :=
  ∀ s ∈ r.sessions, s.client_id < r.next_id

instance (r : Registry) : Decidable r.wf :=
  inferInstanceAs (Decidable (∀ s ∈ r.sessions, s.client_id < r.next_id))

/-- Filtering out an identifier that no session carries keeps the session
list intact. -/
theorem filter_absent_id (l : List ClientSession) (id : Nat)
    (h : ∀ s ∈ l, s.client_id ≠ id) :
    l.filter (fun s => s.client_id != id) = l := by
  apply List.filter_eq_self.mpr
  intro s hs
  simpa using h s hs

/-- The identifiers handed out by a run of registrations are the consecutive
naturals starting at the registry's counter. -/
theorem register_all_ids (r : Registry) (addrs : List CompioSocketAddr) :
    (register_all r addrs).1 = List.range' r.next_id addrs.length := by
  induction addrs generalizing r with
  | nil => rfl
  | cons a rest ih =>
    simp [register_all, add_client, List.range'_succ, ih]

/-- A run of registrations grows the session list by one entry per address. -/
theorem register_all_size (r : Registry) (addrs : List CompioSocketAddr) :
    (register_all r addrs).2.sessions.length = r.sessions.length + addrs.length := by
  induction addrs generalizing r with
  | nil => simp [register_all]
  | cons a rest ih =>
    simp [register_all, add_client, ih]
    omega

/-- C1: for every request, the wrapper's trace contains the registration, the
handler invocation, the deregistration of the same client identifier, and the
return, at strictly increasing positions, with the return as the final event:
`add_client` completes before `next.run`, and `delete_client` completes after
the handler and before the wrapper returns. -/
theorem manage_clients_event_order (r : Registry) (addr : CompioSocketAddr)
    (req : Request) (next : Request → Response) :
    ∃ (s : ClientSession) (i j k l : Nat),
      i < j ∧ j < k ∧ k < l ∧
      (manage_clients_trace r addr req next).2.2.get? i = some (Event.registered s) ∧
      (manage_clients_trace r addr req next).2.2.get? j = some Event.handlerRun ∧
      (manage_clients_trace r addr req next).2.2.get? k =
        some (Event.deregistered s.client_id) ∧
      (manage_clients_trace r addr req next).2.2.get? l = some Event.returned ∧
      (manage_clients_trace r addr req next).2.2.length = l + 1 := by
  refine ⟨⟨r.next_id, addr, TransportProtocol.Http⟩, 0, 1, 2, 3, ?_⟩
  simp [manage_clients_trace, add_client, spawn_then_await]

/-- C2 counterexample: a cancelled request is an outcome on which the registry
size is not restored — cancelling at the handler await after registering from
a fresh registry leaves one session where there was none. -/
theorem cancelled_request_changes_registry_size :
    (manage_clients_cancelled_at_handler ⟨0, []⟩ ⟨"203.0.113.5", 4200⟩).sessions.length ≠
      (⟨0, []⟩ : Registry).sessions.length := by
  decide

/-- C2 (amended): for every request that runs to completion — success or
handler-raised error — the wrapper adds exactly one session and removes
exactly that session, restoring the session list (hence the registry size)
to its pre-request value, provided the registry is well-formed. -/
theorem manage_clients_balanced (r : Registry) (addr : CompioSocketAddr)
    (req : Request) (next : Request → Response) (h : r.wf) :
    (manage_clients r addr req next).2.sessions = r.sessions ∧
    (manage_clients r addr req next).2.sessions.length = r.sessions.length := by
  have hrest : r.sessions.filter (fun s => s.client_id != r.next_id) = r.sessions :=
    filter_absent_id r.sessions r.next_id
      (fun s hs => Nat.ne_of_lt (h s hs))
  constructor
  · simp [manage_clients, add_client, spawn_then_await, delete_client, hrest]
  · simp [manage_clients, add_client, spawn_then_await, delete_client, hrest]

/-- Witness for C2's amended theorem at a concrete well-formed registry. -/
theorem manage_clients_balanced_w :
    (Registry.wf ⟨2, [⟨0, ⟨"198.51.100.1", 9090⟩, TransportProtocol.Tcp⟩]⟩) ∧
    (manage_clients ⟨2, [⟨0, ⟨"198.51.100.1", 9090⟩, TransportProtocol.Tcp⟩]⟩
        ⟨"203.0.113.9", 8080⟩ ⟨7⟩ (fun q => ⟨200, q.payload⟩)).2.sessions =
      [⟨0, ⟨"198.51.100.1", 9090⟩, TransportProtocol.Tcp⟩] ∧
    (manage_clients ⟨2, [⟨0, ⟨"198.51.100.1", 9090⟩, TransportProtocol.Tcp⟩]⟩
        ⟨"203.0.113.9", 8080⟩ ⟨7⟩ (fun q => ⟨200, q.payload⟩)).2.sessions.length =
      ([⟨0, ⟨"198.51.100.1", 9090⟩, TransportProtocol.Tcp⟩] : List ClientSession).length :=
  ⟨by decide,
    (manage_clients_balanced ⟨2, [⟨0, ⟨"198.51.100.1", 9090⟩, TransportProtocol.Tcp⟩]⟩
      ⟨"203.0.113.9", 8080⟩ ⟨7⟩ (fun q => ⟨200, q.payload⟩) (by decide)).1,
    (manage_clients_balanced ⟨2, [⟨0, ⟨"198.51.100.1", 9090⟩, TransportProtocol.Tcp⟩]⟩
      ⟨"203.0.113.9", 8080⟩ ⟨7⟩ (fun q => ⟨200, q.payload⟩) (by decide)).2⟩

/-- C3: at the failing input (a request cancelled at the handler await after
registering from an empty registry), the wrapper never reaches the spawned
`delete_client`, so the session stays registered — the code deregisters only
when control flow reaches the deregistration statement, against the spec's
requirement of guaranteed release on all exit paths. -/
theorem cancelled_request_leaks_session :
    (manage_clients_cancelled_at_handler ⟨0, []⟩ ⟨"198.51.100.7", 8080⟩).sessions =
      [⟨0, ⟨"198.51.100.7", 8080⟩, TransportProtocol.Http⟩] := by
  decide

/-- C4: for every request, the wrapper returns exactly the handler chain's
response wrapped in `Ok`, untranslated and unaltered — including when that
response is the handler's own failure status. -/
theorem manage_clients_returns_handler_response (r : Registry)
    (addr : CompioSocketAddr) (req : Request) (next : Request → Response) :
    (manage_clients r addr req next).1 = Except.ok (next req) := rfl

/-- C5: spawning the deregistration and immediately awaiting it, as the
wrapper does, produces the same response and the same final registry state as
calling `delete_client` directly and synchronously at that point, for every
request. -/
theorem spawn_await_equiv_direct (r : Registry) (addr : CompioSocketAddr)
    (req : Request) (next : Request → Response) :
    manage_clients r addr req next = manage_clients_direct r addr req next := rfl

/-- C7: registering N requests with pairwise-distinct peer addresses on one
shard yields N pairwise-distinct client identifiers and grows the registry by
exactly N. -/
theorem register_all_distinct_ids_and_size (r : Registry)
    (addrs : List CompioSocketAddr) (_h : addrs.Nodup) :
    (register_all r addrs).1.Nodup ∧
    (register_all r addrs).2.sessions.length = r.sessions.length + addrs.length := by
  constructor
  · rw [register_all_ids]
    exact List.nodup_range' _ _
  · exact register_all_size r addrs

/-- Witness for C7 at two concrete distinct addresses. -/
theorem register_all_distinct_ids_and_size_w :
    ([⟨"192.0.2.1", 80⟩, ⟨"192.0.2.2", 80⟩] : List CompioSocketAddr).Nodup ∧
    (register_all ⟨0, []⟩ [⟨"192.0.2.1", 80⟩, ⟨"192.0.2.2", 80⟩]).1.Nodup ∧
    (register_all ⟨0, []⟩ [⟨"192.0.2.1", 80⟩, ⟨"192.0.2.2", 80⟩]).2.sessions.length =
      ([] : List ClientSession).length + 2 :=
  ⟨by decide,
    (register_all_distinct_ids_and_size ⟨0, []⟩ [⟨"192.0.2.1", 80⟩, ⟨"192.0.2.2", 80⟩]
      (by decide)).1,
    (register_all_distinct_ids_and_size ⟨0, []⟩ [⟨"192.0.2.1", 80⟩, ⟨"192.0.2.2", 80⟩]
      (by decide)).2⟩

/-- C8: removing an identifier that no live session carries is a total no-op:
the shard does not crash (the operation is a total function), nothing is
surfaced to the caller, and the registry — every unrelated session included —
is unchanged. -/
theorem delete_client_absent_noop (r : Registry) (id : Nat)
    (h : ∀ s ∈ r.sessions, s.client_id ≠ id) :
    delete_client r id = r := by
  simp [delete_client, filter_absent_id r.sessions id h]

/-- Witness for C8 at a concrete registry without the removed identifier. -/
theorem delete_client_absent_noop_w :
    (∀ s ∈ (⟨3, [⟨1, ⟨"192.0.2.8", 99⟩, TransportProtocol.Http⟩]⟩ : Registry).sessions,
      s.client_id ≠ 42) ∧
    delete_client ⟨3, [⟨1, ⟨"192.0.2.8", 99⟩, TransportProtocol.Http⟩]⟩ 42 =
      ⟨3, [⟨1, ⟨"192.0.2.8", 99⟩, TransportProtocol.Http⟩]⟩ :=
  ⟨by decide,
    delete_client_absent_noop ⟨3, [⟨1, ⟨"192.0.2.8", 99⟩, TransportProtocol.Http⟩]⟩ 42
      (by decide)⟩

/-- C9: on every input on which the wrapper runs to completion it returns
`Ok`; the declared `StatusCode` error branch of its result type is never
taken. -/
theorem manage_clients_never_errors (r : Registry) (addr : CompioSocketAddr)
    (req : Request) (next : Request → Response) :
    ∃ resp, (manage_clients r addr req next).1 = Except.ok resp :=
  ⟨next req, rfl⟩

/-- C10: every session the wrapper registers carries the protocol tag fixed
to HTTP and the remote address equal to the resolved peer address of the
request. -/
theorem registered_session_protocol_and_address (r : Registry)
    (addr : CompioSocketAddr) (req : Request) (next : Request → Response)
    (s : ClientSession)
    (h : Event.registered s ∈ (manage_clients_trace r addr req next).2.2) :
    s.protocol = TransportProtocol.Http ∧ s.remote_address = addr := by
  simp [manage_clients_trace, add_client, spawn_then_await] at h
  subst h
  exact ⟨rfl, rfl⟩

/-- Witness for C10 at a concrete trace containing the registered session. -/
theorem registered_session_protocol_and_address_w :
    (Event.registered ⟨5, ⟨"192.0.2.1", 80⟩, TransportProtocol.Http⟩ ∈
      (manage_clients_trace ⟨5, []⟩ ⟨"192.0.2.1", 80⟩ ⟨7⟩
        (fun q => ⟨200, q.payload⟩)).2.2) ∧
    ((⟨5, ⟨"192.0.2.1", 80⟩, TransportProtocol.Http⟩ : ClientSession).protocol =
        TransportProtocol.Http ∧
      (⟨5, ⟨"192.0.2.1", 80⟩, TransportProtocol.Http⟩ : ClientSession).remote_address =
        ⟨"192.0.2.1", 80⟩) :=
  ⟨by decide,
    registered_session_protocol_and_address ⟨5, []⟩ ⟨"192.0.2.1", 80⟩ ⟨7⟩
      (fun q => ⟨200, q.payload⟩) ⟨5, ⟨"192.0.2.1", 80⟩, TransportProtocol.Http⟩
      (by decide)⟩

end Iggy
